import Mathlib

/-!
Shallow embedding of the EthicalAds publisher client (src/index.js).

Pure fragments of the client (keyword extraction, placement construction,
request-parameter building) are translated into Lean functions; the
timer/listener driven viewability tracking is translated into an explicit
state machine driven by an event list; the JSONP promise settlement is
translated into a total function into an explicit settlement type.
-/

namespace EthicalAds

/-! Constants from src/index.js -/

def AD_CLIENT_VERSION : String := "1.6.2"

def AD_TYPES_VERSION : Nat := 1

def MAX_WORDS_ANALYZED : Nat := 9999

def MAX_KEYWORDS : Nat := 3

def MIN_KEYWORD_OCCURRENCES : Nat := 2

def VIEW_TIME_INTERVAL : Nat := 1

def VIEW_TIME_MAX : Nat := 5 * 60

/-- The static `KEYWORDS` dictionary: literal page token to canonical tag. -/
def KEYWORDS : List (String × String) := [
  ("android", "android"),
  ("ios", "ios"),
  ("iphone", "ios"),
  ("blockchain", "blockchain"),
  ("bitcoin", "bitcoin"),
  ("ethereum", "ethereum"),
  ("hyperledger", "hyperledger"),
  ("solidity", "solidity"),
  ("cryptography", "cryptography"),
  ("security", "security"),
  ("infosec", "security"),
  ("privacy", "privacy"),
  ("authentication", "authentication"),
  ("authorization", "authorization"),
  ("otp", "otp"),
  ("2fa", "2fa"),
  ("mfa", "mfa"),
  ("sms", "sms"),
  ("frontend", "frontend"),
  ("backend", "backend"),
  ("full-stack", "backend"),
  ("devops", "devops"),
  ("ai", "artificial-intelligence"),
  ("nlp", "nlp"),
  ("ml", "machine-learning"),
  ("cloud", "cloud"),
  ("api", "api"),
  ("docker", "docker"),
  ("kubernetes", "kubernetes"),
  ("container", "containers"),
  ("containers", "containers"),
  ("ansible", "ansible"),
  ("serverless", "serverless"),
  ("openshift", "openshift"),
  ("terraform", "terraform"),
  ("openid", "openid"),
  ("aws", "aws"),
  ("azure", "azure"),
  ("gcp", "gcp"),
  ("linux", "linux"),
  ("ubuntu", "ubuntu"),
  ("monitoring", "monitoring"),
  ("redis", "redis"),
  ("rabbitmq", "rabbitmq"),
  ("nosql", "nosql"),
  ("postgres", "postgresql"),
  ("postgresql", "postgresql"),
  ("mysql", "mysql"),
  ("database", "database"),
  ("testing", "testing"),
  ("pytest", "pytest"),
  ("lint", "lint"),
  ("linting", "lint"),
  ("pylint", "pylint"),
  ("unittest", "unittest"),
  ("ci", "ci"),
  ("cd", "cd"),
  ("tdd", "test-driven-development"),
  ("elasticsearch", "elasticsearch"),
  ("lucene", "lucene"),
  ("solr", "solr"),
  ("nginx", "nginx"),
  ("heroku", "heroku"),
  ("spa", "spa"),
  ("django", "django"),
  ("rails", "rails"),
  ("angular", "angular"),
  ("angularjs", "angular"),
  ("laravel", "laravel"),
  ("react", "reactjs"),
  ("reactjs", "reactjs"),
  ("react-native", "reactjs"),
  ("jupyter", "jupyter"),
  ("matplotlib", "matplotlib"),
  ("pytorch", "pytorch"),
  ("pydata", "pydata"),
  ("pandas", "pandas"),
  ("numpy", "numpy"),
  ("wsgi", "wsgi"),
  ("celery", "celery"),
  ("jinja", "jinja"),
  ("jinja2", "jinja"),
  ("flask", "flask"),
  ("werkzeug", "werkzeug"),
  ("oauth", "oauth"),
  ("vuejs", "vuejs"),
  ("vue", "vuejs"),
  ("tensorflow", "tensorflow"),
  ("tensor", "tensor"),
  ("webpack", "webpack"),
  ("dotnet", "dotnet"),
  (".net", "dotnet"),
  ("c#", "c-sharp"),
  ("c++", "cplusplus"),
  ("erlang", "erlang"),
  ("f#", "fsharp"),
  ("golang", "golang"),
  ("haskell", "haskell"),
  ("java", "java"),
  ("javascript", "javascript"),
  ("julia", "julia"),
  ("kotlin", "kotlin"),
  ("obj-c", "obj-c"),
  ("objective-c", "obj-c"),
  ("php", "php"),
  ("python", "python"),
  ("perl", "perl"),
  ("sql", "sql"),
  ("ruby", "ruby"),
  ("rust", "rust"),
  ("scala", "scala"),
  ("swift", "swift"),
  ("css", "css"),
  ("scss", "scss"),
  ("typescript", "typescript"),
  ("redux", "redux")]

/-! Keyword extraction (`detectKeywords`) -/

/-- Characters stripped (at most one) from the start of a word by
`wordTrimmer = /^[\('"]?(.*?)[,\.\?\!:;\)'"]?$/g`. -/
def LEADING_TRIM : List Char := ['(', '\'', '"']

/-- Characters stripped (at most one) from the end of a word by `wordTrimmer`. -/
def TRAILING_TRIM : List Char := [',', '.', '?', '!', ':', ';', ')', '\'', '"']

/-- The replace call `words[x].replace(wordTrimmer, "$1")`: the regex anchors
at both ends, optionally consumes one leading character from `[\('"]` and one
trailing character from `[,\.\?\!:;\)'"]`, and keeps the middle. -/
def trimWord (w : String) : String :=
  let cs := w.toList
  let cs := match cs with
    | [] => []
    | c :: rest => if LEADING_TRIM.contains c then rest else c :: rest
  let cs := match cs.getLast? with
    | some c => if TRAILING_TRIM.contains c then cs.dropLast else cs
    | none => cs
  String.mk cs

/-- The `.toLowerCase()` call, character by character. -/
def jsToLower (s : String) : String :=
  String.mk (s.toList.map Char.toLower)

/-- The increment `keywordHist[tag] = (keywordHist[tag] || 0) + 1` on a plain
object: increment in place, new keys appended in insertion order (the order
`Object.entries` later reports). -/
def bumpHist : List (String × Nat) → String → List (String × Nat)
  | [], tag => [(tag, 1)]
  | (t, n) :: rest, tag =>
    if t = tag then (t, n + 1) :: rest else (t, n) :: bumpHist rest tag

/-- The histogram loop of `detectKeywords`: scan at most `MAX_WORDS_ANALYZED`
words, trim and lowercase each, and count hits in the `KEYWORDS` dictionary. -/
def analyzeWords (words : List String) : List (String × Nat) :=
  (words.take MAX_WORDS_ANALYZED).foldl
    (fun keywordHist w =>
      let word := jsToLower (trimWord w)
      match KEYWORDS.lookup word with
      | some tag => bumpHist keywordHist tag
      | none => keywordHist)
    []

/-- One insertion step of the stable descending-by-count sort: place `a`
before the first entry whose count does not exceed the count of `a`. -/
def sortInsert (a : String × Nat) : List (String × Nat) → List (String × Nat)
  | [] => [a]
  | b :: bs => if b.2 ≤ a.2 then a :: b :: bs else b :: sortInsert a bs

/-- The comparator call `.sort((a, b) => ...)`: the comparator orders
strictly by descending count and returns 0 on ties, and `Array.prototype.sort`
is stable, so the result is the unique stable descending-by-count reordering;
it is embedded as a stable insertion sort. -/
def jsSortByCount (l : List (String × Nat)) : List (String × Nat) :=
  l.foldr sortInsert []

/-- The tail of `detectKeywords`: filter entries with at least
`MIN_KEYWORD_OCCURRENCES`, stable-sort descending by count, take the first
`MAX_KEYWORDS`, and keep the tag names. -/
def computeKeywords (words : List String) : List String :=
  (((jsSortByCount ((analyzeWords words).filter
      fun a => decide (MIN_KEYWORD_OCCURRENCES ≤ a.2))).take MAX_KEYWORDS).map Prod.fst)

/-- The function `detectKeywords` with the process-wide `detectedKeywords`
cache made explicit: the input cache is the global before the call, the
second component is the global after the call. A cached list (even an empty
one: `[]` is truthy in JS) is returned unchanged without rescanning. -/
def detectKeywords (detectedKeywords : Option (List String)) (pageWords : List String) :
    List String × Option (List String) :=
  match detectedKeywords with
  | some cached => (cached, some cached)
  | none =>
    let keywords := computeKeywords pageWords
    (keywords, some keywords)

/-! Decision responses and the JSONP fetch promise (`Placement.fetch`) -/

/-- The decision-service response object, as the callback receives it:
`html`, `view_url` and `view_time_url` are fields that may be absent
(`none`), empty (`some ""`, falsy in JS) or present and non-empty (truthy). -/
structure DecisionResponse where
  html : Option String
  view_url : Option String
  view_time_url : Option String
  deriving DecidableEq

/-- JS truthiness of a possibly-absent string field: `null`/`undefined` and
the empty string are falsy, every other string is truthy. -/
def truthy : Option String → Bool
  | none => false
  | some s => !s.isEmpty

/-- The value a `Placement.fetch` promise can resolve with: a DOM node built
from the response markup, `null` (no ad), or `undefined` (request blocked). -/
inductive FetchValue where
  | node (html : String)
  | null
  | undef
  deriving DecidableEq

/-- How a promise settles. `Placement.fetch` never calls `reject`, but the
constructor is kept so that "never rejects" is a statement, not a typing
accident of the model. -/
inductive Settlement where
  | resolved (v : FetchValue)
  | rejected (message : String)
  deriving DecidableEq

/-- The registered `window[callback]` body: with a response carrying truthy
`html` and `view_url` it stores the response and resolves with the node parsed
from the markup; otherwise it resolves with `null`. The first component is
the settlement, the second the value stored into `this.response`. -/
def fetchCallback (response : Option DecisionResponse) :
    Settlement × Option DecisionResponse :=
  match response with
  | some r =>
    if truthy r.html && truthy r.view_url then
      (Settlement.resolved (FetchValue.node (r.html.getD "")), some r)
    else
      (Settlement.resolved FetchValue.null, none)
  | none => (Settlement.resolved FetchValue.null, none)

/-- The `error` listener on the injected script element: resolve with no
argument, i.e. with `undefined`. -/
def fetchScriptError : Settlement :=
  Settlement.resolved FetchValue.undef

/-- Whether a settlement is a resolution (as opposed to a rejection). -/
def Settlement.isResolved : Settlement → Bool
  | Settlement.resolved _ => true
  | Settlement.rejected _ => false

/-! Viewport / view-time tracking (the `load` continuation): two timers and a
visibility-change listener driven as a state machine over an event list. -/

/-- Per-placement tracking state. `view_pixel_sent` records that the
`viewport_detection` timer has appended the view pixel; `view_time_pixels`
counts view-time reporting pixels appended by the visibility listener; the
three `*_active` flags record whether the two intervals are still set and the
listener still registered. -/
structure TrackerState where
  view_time : Nat
  view_time_sent : Bool
  view_pixel_sent : Bool
  viewport_timer_active : Bool
  view_timer_active : Bool
  listener_active : Bool
  view_time_pixels : Nat
  deriving DecidableEq

/-- State right after the ad markup is injected and the timers and listener
are installed. -/
def initTracker : TrackerState where
  view_time := 0
  view_time_sent := false
  view_pixel_sent := false
  viewport_timer_active := true
  view_timer_active := true
  listener_active := true
  view_time_pixels := 0

/-- One scheduler callback: a `viewport_detection` tick, a
`view_time_counter` tick (each observing the current element geometry and
`document.visibilityState`), or a `visibilitychange` event. -/
inductive TrackerEvent where
  | viewportTick (geometry : Bool) (visibilityState : String)
  | viewTimeTick (geometry : Bool) (visibilityState : String)
  | visibilityChange (visibilityState : String)
  deriving DecidableEq

/-- The check `Placement.inViewport`: the stored response must carry a truthy
`view_url`, the element must intersect the viewport (the `verge` geometry
check, abstracted as a boolean observation), and the page must be visible. -/
def inViewport (r : DecisionResponse) (geometry : Bool) (visibilityState : String) : Bool :=
  truthy r.view_url && geometry && (visibilityState == "visible")

/-- One step of the tracking state machine; `r` is the decision response the
placement stored at fetch time. Each branch mirrors the corresponding
callback body in `Placement.load`; a fired event whose timer or listener has
been cleared is a no-op. -/
def trackerStep (r : DecisionResponse) (s : TrackerState) : TrackerEvent → TrackerState
  | TrackerEvent.viewportTick g vs =>
    if s.viewport_timer_active then
      if inViewport r g vs then
        { s with view_pixel_sent := true, viewport_timer_active := false }
      else s
    else s
  | TrackerEvent.viewTimeTick g vs =>
    if s.view_timer_active then
      if s.view_time_sent then
        { s with view_timer_active := false }
      else if inViewport r g vs then
        if VIEW_TIME_MAX ≤ s.view_time + VIEW_TIME_INTERVAL then
          { s with view_time := s.view_time + VIEW_TIME_INTERVAL,
                   view_timer_active := false }
        else
          { s with view_time := s.view_time + VIEW_TIME_INTERVAL }
      else s
    else s
  | TrackerEvent.visibilityChange vs =>
    if s.listener_active then
      if s.view_time == 0 || s.view_time_sent || !truthy r.view_time_url then s
      else if vs == "hidden" || vs == "unloaded" then
        { s with view_time_sent := true, listener_active := false,
                 view_time_pixels := s.view_time_pixels + 1 }
      else s
    else s

/-- Run the tracking state machine over a whole event interleaving. -/
def runTracker (r : DecisionResponse) (s : TrackerState) : List TrackerEvent → TrackerState
  | [] => s
  | e :: es => runTracker r (trackerStep r s e) es

/-- Number of false-to-true transitions of `view_time_sent` along an event
interleaving. -/
def sentFlips (r : DecisionResponse) (s : TrackerState) : List TrackerEvent → Nat
  | [] => 0
  | e :: es =>
    (if s.view_time_sent = false ∧ (trackerStep r s e).view_time_sent = true
      then 1 else 0) + sentFlips r (trackerStep r s e) es

/-- Invariant tying the cumulative counter to the `view_time_counter` timer:
the counter never exceeds the cap, and while the timer is still set the cap
has not been reached yet. -/
def ViewTimeInv (s : TrackerState) : Prop :=
  s.view_time ≤ VIEW_TIME_MAX ∧
    (s.view_timer_active = true → s.view_time < VIEW_TIME_MAX)

/-- A well-formed decision response used by concrete witnesses. -/
def sampleResponse : DecisionResponse :=
  ⟨some "<div>ad</div>", some "view", some "viewtime"⟩

/-- A reachable tracking state with three seconds of accumulated view time
and the report not yet sent. -/
def sampleSentState : TrackerState where
  view_time := 3
  view_time_sent := false
  view_pixel_sent := true
  viewport_timer_active := false
  view_timer_active := true
  listener_active := true
  view_time_pixels := 0

/-- A state reached from `initTracker` in which the viewed pixel has been
appended (the `viewport_detection` timer fired) and one second of view time
has accumulated. -/
def viewPixelState : TrackerState :=
  runTracker sampleResponse initTracker
    [TrackerEvent.viewportTick true "visible", TrackerEvent.viewTimeTick true "visible"]

/-- A reachable tracking state one tick short of the view-time cap. -/
def capState : TrackerState where
  view_time := 299
  view_time_sent := false
  view_pixel_sent := true
  viewport_timer_active := false
  view_timer_active := true
  listener_active := true
  view_time_pixels := 0

/-- A tracking state whose view-time report has been sent while the
view-time timer is still set (the race C1 and C9 are about). -/
def reportSentState : TrackerState where
  view_time := 7
  view_time_sent := true
  view_pixel_sent := true
  viewport_timer_active := false
  view_timer_active := true
  listener_active := false
  view_time_pixels := 1

/-! Placements, the factory `Placement.from_element`, and `load_placements` -/

/-- The part of a DOM marker element the client reads: its id, its class
string, and its attribute map (`getAttribute` returns null, here `none`, for
an absent attribute). -/
structure Element where
  id : String
  className : String
  attrs : List (String × String)
  deriving DecidableEq

/-- The accessor `element.getAttribute(name)`. -/
def Element.getAttribute (element : Element) (name : String) : Option String :=
  element.attrs.lookup name

/-- Helper for `jsSplit`: split a character list at a separator character.
Splitting the empty list yields one empty group, as JS `"".split(sep)`
yields `[""]`. -/
def splitChars (sep : Char) : List Char → List (List Char)
  | [] => [[]]
  | c :: cs =>
    match splitChars sep cs with
    | [] => if c = sep then [[], []] else [[c]]
    | g :: gs => if c = sep then [] :: g :: gs else (c :: g) :: gs

/-- JS `String.prototype.split` with a one-character separator (the client
only splits on `" "` and `"|"`). -/
def jsSplit (s : String) (sep : Char) : List String :=
  (splitChars sep s.toList).map String.mk

/-- JS `String.prototype.slice(0, n)`. -/
def jsSlice (s : String) (n : Nat) : String :=
  String.mk (s.toList.take n)

/-- The options object passed to the `Placement` constructor. Absent fields
are `none`; note that in JS an empty array is truthy, so `some []` and `none`
behave differently under `||` but identically under the later length check. -/
structure PlacementOptions where
  style : Option String
  keywords : Option (List String)
  load_manually : Bool
  force_ad : Option String
  force_campaign : Option String
  campaign_types : Option (List String)
  deriving DecidableEq

/-- The `Placement` instance fields set by the constructor. -/
structure Placement where
  publisher : Option String
  ad_type : String
  target : Element
  style : Option String
  keywords : List String
  load_manually : Bool
  force_ad : Option String
  force_campaign : Option String
  campaign_types : List String
  view_time : Nat
  view_time_sent : Bool
  response : Option DecisionResponse
  deriving DecidableEq

/-- The `Placement` constructor: `options.keywords || []`,
`options.campaign_types || []` followed by the default campaign-type list
when the resulting list is empty, and the initial tracking fields. -/
def Placement.make (publisher : Option String) (ad_type : String) (target : Element)
    (options : PlacementOptions) : Placement :=
  let campaign_types := options.campaign_types.getD []
  let campaign_types :=
    if campaign_types.length = 0 then
      ["paid", "publisher-house", "community", "house"]
    else campaign_types
  { publisher := publisher
    ad_type := ad_type
    target := target
    style := options.style
    keywords := options.keywords.getD []
    load_manually := options.load_manually
    force_ad := options.force_ad
    force_campaign := options.force_campaign
    campaign_types := campaign_types
    view_time := 0
    view_time_sent := false
    response := none }

/-- The factory `Placement.from_element`: read the `data-ea-*` attributes,
default the ad type to "image" (the write-back of the default onto the
element is a DOM effect not modelled), split and length-filter the keyword
and campaign-type lists, version the "image"/"text" ad types, and refuse
(returning null) any element whose class list (`indexOf >= 0`, i.e.
membership) already contains "loaded". -/
def Placement.from_element (element : Element) : Option Placement :=
  let publisher := element.getAttribute "data-ea-publisher"
  let ad_type0 := element.getAttribute "data-ea-type"
  let ad_type := match ad_type0 with
    | none => "image"
    | some s => if s.isEmpty then "image" else s
  let keywords := (jsSplit ((element.getAttribute "data-ea-keywords").getD "") '|').filter
    fun word => 1 < word.length
  let campaign_types :=
    (jsSplit ((element.getAttribute "data-ea-campaign-types").getD "") '|').filter
      fun word => 1 < word.length
  let load_manually := element.getAttribute "data-ea-manual" == some "true"
  let style := element.getAttribute "data-ea-style"
  let force_ad := element.getAttribute "data-ea-force-ad"
  let force_campaign := element.getAttribute "data-ea-force-campaign"
  let ad_type := if ad_type == "image" || ad_type == "text" then
      ad_type ++ "-v" ++ toString AD_TYPES_VERSION
    else ad_type
  let classes := jsSplit element.className ' '
  if "loaded" ∈ classes then none
  else some (Placement.make publisher ad_type element
    { style := style
      keywords := some keywords
      load_manually := load_manually
      force_ad := force_ad
      force_campaign := force_campaign
      campaign_types := some campaign_types })

/-- The `URLSearchParams` stringification of a possibly-null value. -/
def jsParamValue : Option String → String
  | some s => s
  | none => "null"

/-- The query parameters `Placement.fetch` sends, in insertion order:
the base object, then `force_ad` and `force_campaign` appended only when
truthy. `callback` is the generated one-shot callback name (also the
fallback div id) and `origin`/`pathname` come from `window.location`. -/
def fetchParams (p : Placement) (callback : String) (origin pathname : String) :
    List (String × String) :=
  [("publisher", jsParamValue p.publisher),
   ("ad_types", p.ad_type),
   ("div_ids", if p.target.id.isEmpty then callback else p.target.id),
   ("callback", callback),
   ("keywords", String.intercalate "|" p.keywords),
   ("campaign_types", String.intercalate "|" p.campaign_types),
   ("format", "jsonp"),
   ("client_version", AD_CLIENT_VERSION),
   ("url", jsSlice (origin ++ pathname) 256)]
  ++ (if truthy p.force_ad then [("force_ad", jsParamValue p.force_ad)] else [])
  ++ (if truthy p.force_campaign then [("force_campaign", jsParamValue p.force_campaign)] else [])

/-- The bootstrap `load_placements`: with no marker element, throw before any
placement is built; otherwise map every element through the factory and start
a load (one decision request each) for every placement not deferred by the
manual flag. A `some` entry is a started load, a `none` entry is a skipped
element. -/
def load_placements (elements : List Element) (force_load : Bool) :
    Except String (List (Option Placement)) :=
  if elements.length = 0 then
    Except.error "No ad placements found."
  else
    Except.ok (elements.map fun element =>
      match Placement.from_element element with
      | some placement =>
        if force_load || !placement.load_manually then some placement else none
      | none => none)

/-- Number of decision-service requests `load_placements` initiates: one per
started load; none at all when it throws before mapping. -/
def decision_requests (elements : List Element) (force_load : Bool) : Nat :=
  match load_placements elements force_load with
  | Except.error _ => 0
  | Except.ok loads => loads.countP Option.isSome

/-- A marker element already carrying the "loaded" class. -/
def loadedElement : Element :=
  { id := "", className := "loaded", attrs := [("data-ea-publisher", "pub")] }

/-! The page-ready `wait` promise -/

/-- An error reaching the catch handler of `wait`; `isWarning` models
`err instanceof EthicalAdsWarning` (the low-severity no-ad and blocked
conditions). -/
structure EAError where
  message : String
  isWarning : Bool
  deriving DecidableEq

/-- Console log severity used by the catch handler. -/
inductive LogLevel where
  | debug
  | error
  deriving DecidableEq

/-- State of the page-ready promise: its executor only ever calls `resolve`,
so it either resolves or, when `resolve` is never reached, stays pending
forever. -/
inductive WaitState (α : Type) where
  | resolved (v : List α)
  | rejected (e : EAError)
  | pending
  deriving DecidableEq

/-- How the `load_placements()` expression inside the `wait` executor turns
out: it can throw synchronously (before any promise is returned, so before
the `.then`/`.catch` handlers are attached), or return the `Promise.all`
aggregate, which later fulfills with the started loads or rejects with the
first per-placement failure. -/
inductive LoadPlacementsOutcome (α : Type) where
  | thrown (message : String)
  | fulfilled (placements : List α)
  | rejected (err : EAError)
  deriving DecidableEq

/-- The outcome of `load_placements()` for a given page: the synchronous
throw is determined by the element list; otherwise the aggregate settles
according to the environment (`agg`): `none` when every started load
fulfills, `some err` when `Promise.all` rejects with the first failure.
The fulfillment value abstracts the per-load resolution values by the list
of started placements. -/
def loadPlacementsOutcome (elements : List Element) (force_load : Bool)
    (agg : Option EAError) : LoadPlacementsOutcome (Option Placement) :=
  match load_placements elements force_load with
  | Except.error msg => LoadPlacementsOutcome.thrown msg
  | Except.ok loads =>
    match agg with
    | some err => LoadPlacementsOutcome.rejected err
    | none => LoadPlacementsOutcome.fulfilled loads

/-- The `wait` wiring: the executor runs `load_placements().then(...).catch(...)`
inside `wait_dom.then`. A fulfilled aggregate is resolved through unchanged;
a rejected aggregate reaches the catch handler, which resolves with the empty
list and emits one log entry, at debug level for an `EthicalAdsWarning` and
at error level otherwise. A synchronous throw from `load_placements()`,
however, happens before the `.then`/`.catch` handlers are attached: it
rejects the intermediate (unhandled) `wait_dom.then` promise, `resolve` is
never called, the catch handler never runs, and `wait` stays pending forever
with no log entry. -/
def waitPromise (α : Type) (outcome : LoadPlacementsOutcome α) :
    WaitState α × List (LogLevel × String) :=
  match outcome with
  | LoadPlacementsOutcome.thrown _ => (WaitState.pending, [])
  | LoadPlacementsOutcome.fulfilled placements => (WaitState.resolved placements, [])
  | LoadPlacementsOutcome.rejected err =>
    (WaitState.resolved [],
     [if err.isWarning then (LogLevel.debug, err.message)
      else (LogLevel.error, err.message)])

/-! Theorems: claims C1 to C10 -/

lemma mem_sortInsert {x a : String × Nat} {l : List (String × Nat)} :
    x ∈ sortInsert a l ↔ x = a ∨ x ∈ l := by
  induction l with
  | nil => simp [sortInsert]
  | cons b bs ih =>
    by_cases hb : b.2 ≤ a.2
    · simp [sortInsert, hb]
    · simp only [sortInsert, if_neg hb, List.mem_cons, ih]
      tauto

lemma mem_jsSortByCount {x : String × Nat} {l : List (String × Nat)} :
    x ∈ jsSortByCount l ↔ x ∈ l := by
  induction l with
  | nil => simp [jsSortByCount]
  | cons a as ih =>
    show x ∈ sortInsert a (jsSortByCount as) ↔ _
    rw [mem_sortInsert, ih]
    simp

/-- C4: keyword extraction returns at most `MAX_KEYWORDS` tags, and every
returned tag was counted at least `MIN_KEYWORD_OCCURRENCES` times in the
histogram built from the first `MAX_WORDS_ANALYZED` analyzed words. -/
theorem detectKeywords_bounds (words : List String) :
    (computeKeywords words).length ≤ MAX_KEYWORDS ∧
    ∀ tag, tag ∈ computeKeywords words →
      ∃ n, (tag, n) ∈ analyzeWords words ∧ MIN_KEYWORD_OCCURRENCES ≤ n := by
  constructor
  · unfold computeKeywords
    rw [List.length_map]
    exact List.length_take_le _ _
  · intro tag htag
    obtain ⟨⟨t, n⟩, hp, rfl⟩ := List.mem_map.1 htag
    have h1 := List.mem_of_mem_take hp
    have h2 := mem_jsSortByCount.1 h1
    have h3 := List.mem_filter.1 h2
    exact ⟨n, h3.1, of_decide_eq_true h3.2⟩

/-- Witness for C4 at a concrete token stream. -/
theorem detectKeywords_bounds_witness :
    "docker" ∈ computeKeywords ["docker", "docker"] ∧
    (computeKeywords ["docker", "docker"]).length ≤ MAX_KEYWORDS ∧
    ∃ n, ("docker", n) ∈ analyzeWords ["docker", "docker"] ∧
      MIN_KEYWORD_OCCURRENCES ≤ n :=
  ⟨by decide, (detectKeywords_bounds ["docker", "docker"]).1,
   (detectKeywords_bounds ["docker", "docker"]).2 "docker" (by decide)⟩

/-- C5: once the first invocation has stored its result in the process-wide
cache, every later invocation (on any token stream, scanned or not) returns
the identical cached list and leaves the cache unchanged, including when the
cached list is empty. -/
theorem detectKeywords_idempotent (pageWords pageWords2 : List String) :
    (detectKeywords none pageWords).2 = some (computeKeywords pageWords) ∧
    detectKeywords (detectKeywords none pageWords).2 pageWords2 =
      (computeKeywords pageWords, some (computeKeywords pageWords)) ∧
    detectKeywords (some []) pageWords2 = ([], some []) :=
  ⟨rfl, rfl, rfl⟩

/-- C2: a callback delivery whose response is missing, or lacks a truthy
`html` field, or lacks a truthy `view_url` field, resolves the promise with
`null`; and every callback delivery resolves (never throws or rejects). -/
theorem fetch_malformed_resolves_null (response : Option DecisionResponse) :
    (∃ v, (fetchCallback response).1 = Settlement.resolved v) ∧
    ((response = none ∨ ∃ r, response = some r ∧
        (truthy r.html = false ∨ truthy r.view_url = false)) →
      (fetchCallback response).1 = Settlement.resolved FetchValue.null) := by
  constructor
  · cases response with
    | none => exact ⟨FetchValue.null, rfl⟩
    | some r =>
      unfold fetchCallback
      by_cases h : (truthy r.html && truthy r.view_url) = true
      · exact ⟨FetchValue.node (r.html.getD ""), by simp [h]⟩
      · exact ⟨FetchValue.null, by simp [h]⟩
  · rintro (rfl | ⟨r, rfl, hr⟩)
    · rfl
    · unfold fetchCallback
      rcases hr with hr | hr <;> simp [hr]

/-- Witness for C2: a response with markup but no view-tracking URL
resolves with `null`. -/
theorem fetch_malformed_resolves_null_witness :
    (fetchCallback (some ⟨some "<div>ad</div>", none, none⟩)).1 =
      Settlement.resolved FetchValue.null :=
  (fetch_malformed_resolves_null (some ⟨some "<div>ad</div>", none, none⟩)).2
    (Or.inr ⟨⟨some "<div>ad</div>", none, none⟩, rfl, Or.inr rfl⟩)

/-- C3: a script-element error event resolves the promise with `undefined`,
an outcome distinct from the `null` "no ad" outcome, and is a resolution,
not a rejection. -/
theorem fetch_blocked_resolves_undefined :
    fetchScriptError = Settlement.resolved FetchValue.undef ∧
    Settlement.isResolved fetchScriptError = true ∧
    decide (fetchScriptError = Settlement.resolved FetchValue.null) = false :=
  ⟨rfl, rfl, by decide⟩

lemma trackerStep_sent_mono (r : DecisionResponse) (s : TrackerState) (e : TrackerEvent)
    (h : s.view_time_sent = true) : (trackerStep r s e).view_time_sent = true := by
  cases e <;> simp only [trackerStep] <;> split_ifs <;> simp_all

lemma trackerStep_sent_flip (r : DecisionResponse) (s : TrackerState) (e : TrackerEvent)
    (h0 : s.view_time_sent = false) (h1 : (trackerStep r s e).view_time_sent = true) :
    0 < s.view_time ∧ truthy r.view_time_url = true := by
  cases e <;> simp only [trackerStep] at h1 <;> split_ifs at h1 <;> simp_all
  omega

lemma sentFlips_of_sent (r : DecisionResponse) (es : List TrackerEvent) :
    ∀ s : TrackerState, s.view_time_sent = true → sentFlips r s es = 0 := by
  induction es with
  | nil => intro s _; rfl
  | cons e es ih =>
    intro s hs
    simp only [sentFlips, hs]
    rw [ih _ (trackerStep_sent_mono r s e hs)]
    simp

lemma sentFlips_le_one (r : DecisionResponse) (es : List TrackerEvent) :
    ∀ s : TrackerState, sentFlips r s es ≤ 1 := by
  induction es with
  | nil => intro s; exact Nat.zero_le 1
  | cons e es ih =>
    intro s
    simp only [sentFlips]
    by_cases h2 : (trackerStep r s e).view_time_sent = true
    · rw [sentFlips_of_sent r es _ h2]
      split_ifs <;> simp
    · have : ¬(s.view_time_sent = false ∧ (trackerStep r s e).view_time_sent = true) :=
        fun hc => h2 hc.2
      rw [if_neg this]
      simpa using ih (trackerStep r s e)

/-- C1: along every interleaving of timer callbacks and visibility-change
listener invocations, `view_time_sent` transitions from false to true at most
once; and any single step that sets it requires a positive accumulated
`view_time` and a truthy view-time-tracking URL in the stored decision
response. -/
theorem view_time_sent_at_most_once (r : DecisionResponse) (s : TrackerState)
    (es : List TrackerEvent) :
    sentFlips r s es ≤ 1 ∧
    ∀ e, s.view_time_sent = false → (trackerStep r s e).view_time_sent = true →
      0 < s.view_time ∧ truthy r.view_time_url = true :=
  ⟨sentFlips_le_one r es s, fun e h0 h1 => trackerStep_sent_flip r s e h0 h1⟩

/-- Witness for C1 at a concrete state and a concrete hide event. -/
theorem view_time_sent_at_most_once_witness :
    sentFlips sampleResponse sampleSentState [TrackerEvent.visibilityChange "hidden"] ≤ 1 ∧
    (0 < sampleSentState.view_time ∧ truthy sampleResponse.view_time_url = true) :=
  ⟨(view_time_sent_at_most_once sampleResponse sampleSentState
      [TrackerEvent.visibilityChange "hidden"]).1,
   (view_time_sent_at_most_once sampleResponse sampleSentState
      [TrackerEvent.visibilityChange "hidden"]).2
     (TrackerEvent.visibilityChange "hidden") rfl (by decide)⟩

lemma viewTimeInv_init : ViewTimeInv initTracker := by
  constructor <;> simp [initTracker, VIEW_TIME_MAX]

lemma viewTimeInv_step (r : DecisionResponse) (s : TrackerState) (e : TrackerEvent)
    (h : ViewTimeInv s) : ViewTimeInv (trackerStep r s e) := by
  obtain ⟨h1, h2⟩ := h
  cases e <;> simp only [trackerStep] <;> split_ifs <;>
    constructor <;> simp_all [ViewTimeInv, VIEW_TIME_INTERVAL] <;> omega

lemma viewTimeInv_run (r : DecisionResponse) (es : List TrackerEvent) :
    ∀ s : TrackerState, ViewTimeInv s → ViewTimeInv (runTracker r s es) := by
  induction es with
  | nil => intro s h; exact h
  | cons e es ih => intro s h; exact ih _ (viewTimeInv_step r s e h)

/-- Counterexample to C9 as stated: in a reachable state in which the
viewed-pixel report has been sent (and the view-time report has not), a
further `view_time_counter` tick does not stop the timer and keeps
accumulating, so sending the viewed pixel does not stop the view-time
timer. The flag the code checks is `view_time_sent`, not the viewed-pixel
state. -/
theorem view_timer_not_stopped_by_view_pixel :
    viewPixelState.view_pixel_sent = true ∧
    viewPixelState.view_time_sent = false ∧
    (trackerStep sampleResponse viewPixelState
      (TrackerEvent.viewTimeTick true "visible")).view_timer_active = true ∧
    (trackerStep sampleResponse viewPixelState
      (TrackerEvent.viewTimeTick true "visible")).view_time
        = viewPixelState.view_time + VIEW_TIME_INTERVAL := by decide

/-- C9 (amended): the view-time timer stops once the view-time report has
been sent (`view_time_sent`); otherwise a tick with the element
in-viewport-and-visible adds the interval amount; a tick that reaches
`VIEW_TIME_MAX` stops the timer without sending any report; and along every
event interleaving from the initial state `view_time` never exceeds
`VIEW_TIME_MAX`. -/
theorem view_time_capped (r : DecisionResponse) (s : TrackerState) (g : Bool)
    (vs : String) (es : List TrackerEvent) :
    (s.view_timer_active = true → s.view_time_sent = true →
      (trackerStep r s (TrackerEvent.viewTimeTick g vs)).view_timer_active = false ∧
      (trackerStep r s (TrackerEvent.viewTimeTick g vs)).view_time = s.view_time) ∧
    (s.view_timer_active = true → s.view_time_sent = false →
      inViewport r g vs = true →
      (trackerStep r s (TrackerEvent.viewTimeTick g vs)).view_time
        = s.view_time + VIEW_TIME_INTERVAL ∧
      (VIEW_TIME_MAX ≤ s.view_time + VIEW_TIME_INTERVAL →
        (trackerStep r s (TrackerEvent.viewTimeTick g vs)).view_timer_active = false ∧
        (trackerStep r s (TrackerEvent.viewTimeTick g vs)).view_time_pixels
          = s.view_time_pixels ∧
        (trackerStep r s (TrackerEvent.viewTimeTick g vs)).view_time_sent = false)) ∧
    (runTracker r initTracker es).view_time ≤ VIEW_TIME_MAX := by
  refine ⟨?_, ?_, (viewTimeInv_run r es initTracker viewTimeInv_init).1⟩
  · intro ha hs
    simp only [trackerStep, ha, hs]
    simp
  · intro ha hs hv
    simp only [trackerStep, ha, hs, hv]
    split_ifs <;> simp_all

/-- Witness for the amended C9 at concrete states: a tick after the report
was sent clears the timer; a tick at 299 seconds reaches the cap, stops, and
sends nothing; a concrete run stays at or below the cap. -/
theorem view_time_capped_witness :
    ((trackerStep sampleResponse reportSentState
        (TrackerEvent.viewTimeTick true "visible")).view_timer_active = false ∧
      (trackerStep sampleResponse reportSentState
        (TrackerEvent.viewTimeTick true "visible")).view_time
          = reportSentState.view_time) ∧
    ((trackerStep sampleResponse capState
        (TrackerEvent.viewTimeTick true "visible")).view_time
        = capState.view_time + VIEW_TIME_INTERVAL ∧
      (VIEW_TIME_MAX ≤ capState.view_time + VIEW_TIME_INTERVAL →
        (trackerStep sampleResponse capState
          (TrackerEvent.viewTimeTick true "visible")).view_timer_active = false ∧
        (trackerStep sampleResponse capState
          (TrackerEvent.viewTimeTick true "visible")).view_time_pixels
            = capState.view_time_pixels ∧
        (trackerStep sampleResponse capState
          (TrackerEvent.viewTimeTick true "visible")).view_time_sent = false)) ∧
    (runTracker sampleResponse initTracker
      [TrackerEvent.viewTimeTick true "visible"]).view_time ≤ VIEW_TIME_MAX :=
  ⟨(view_time_capped sampleResponse reportSentState true "visible" []).1 rfl rfl,
   (view_time_capped sampleResponse capState true "visible" []).2.1 rfl rfl (by decide),
   (view_time_capped sampleResponse initTracker true "visible"
      [TrackerEvent.viewTimeTick true "visible"]).2.2⟩

/-- C7: on a page with zero marker elements, `load_placements` throws
"No ad placements found." and initiates no decision-service requests. -/
theorem load_placements_empty_throws (force_load : Bool) :
    load_placements [] force_load = Except.error "No ad placements found." ∧
    decision_requests [] force_load = 0 :=
  ⟨rfl, rfl⟩

/-- C8: an element whose class list already contains "loaded" makes the
factory return null, and on such an element `load_placements` starts no load
(so the element is not mutated again). -/
theorem from_element_skips_loaded (element : Element) (force_load : Bool)
    (h : "loaded" ∈ jsSplit element.className ' ') :
    Placement.from_element element = none ∧
    load_placements [element] force_load = Except.ok [none] := by
  have h1 : Placement.from_element element = none := by
    unfold Placement.from_element
    simp [h]
  refine ⟨h1, ?_⟩
  unfold load_placements
  simp [h1]

/-- Witness for C8 at a concrete already-loaded element. -/
theorem from_element_skips_loaded_witness :
    Placement.from_element loadedElement = none ∧
    load_placements [loadedElement] false = Except.ok [none] :=
  from_element_skips_loaded loadedElement false (by decide)

/-- C10: with an absent or empty campaign-types option the constructor
defaults `campaign_types` to the four standard types, and the ad request
carries their pipe-join as the `campaign_types` parameter. -/
theorem default_campaign_types (publisher : Option String) (ad_type : String)
    (target : Element) (options : PlacementOptions)
    (callback origin pathname : String)
    (h : options.campaign_types = none ∨ options.campaign_types = some []) :
    (Placement.make publisher ad_type target options).campaign_types
      = ["paid", "publisher-house", "community", "house"] ∧
    (fetchParams (Placement.make publisher ad_type target options)
        callback origin pathname).lookup "campaign_types"
      = some "paid|publisher-house|community|house" := by
  rcases options with ⟨st, kw, lm, fa, fc, ct⟩
  rcases h with h | h <;> subst h <;> exact ⟨rfl, rfl⟩

/-- Witness for C10 at a concrete bare marker element. -/
theorem default_campaign_types_witness :
    (Placement.make (some "pub") "image-v1" { id := "", className := "", attrs := [] }
        { style := none, keywords := none, load_manually := false, force_ad := none,
          force_campaign := none, campaign_types := none }).campaign_types
      = ["paid", "publisher-house", "community", "house"] ∧
    (fetchParams (Placement.make (some "pub") "image-v1"
        { id := "", className := "", attrs := [] }
        { style := none, keywords := none, load_manually := false, force_ad := none,
          force_campaign := none, campaign_types := none })
        "ad_1_1" "https://example.com" "/page").lookup "campaign_types"
      = some "paid|publisher-house|community|house" :=
  default_campaign_types (some "pub") "image-v1" { id := "", className := "", attrs := [] }
    { style := none, keywords := none, load_manually := false, force_ad := none,
      force_campaign := none, campaign_types := none }
    "ad_1_1" "https://example.com" "/page" (Or.inl rfl)

/-- C6 fails on the code at the zero-marker-element page, against the intent
stated by the in-source comment above `wait` ("resolves to an aray of
Placement instances, or an empty list if there was any error configuring the
placements"): there `load_placements()` throws "No ad placements found."
synchronously, before the `.then`/`.catch` handlers attach, so `resolve` is
never called and `wait` stays pending forever with no log entry instead of
resolving with the empty list. Only an asynchronous per-placement rejection
of the aggregate reaches the catch handler and yields the documented
empty-list resolution plus one log entry. -/
theorem wait_pending_on_zero_placements :
    loadPlacementsOutcome [] false none
      = LoadPlacementsOutcome.thrown "No ad placements found." ∧
    waitPromise (Option Placement) (loadPlacementsOutcome [] false none)
      = (WaitState.pending, []) ∧
    decide ((WaitState.pending : WaitState (Option Placement))
      = WaitState.resolved []) = false ∧
    waitPromise (Option Placement)
        (LoadPlacementsOutcome.rejected ⟨"No ads to show.", true⟩)
      = (WaitState.resolved [], [(LogLevel.debug, "No ads to show.")]) :=
  ⟨rfl, rfl, by decide, rfl⟩

end EthicalAds
